import Mathlib

/-!
Shallow embedding of `src/midas.py`, a sequential HTTP automation script.

Modelling conventions:
* Python runtime values that reach the script (JSON-decoded response
  bodies, raw text bodies, `None`) are the inductive type `Py`.
* `requests`-level transport is an oracle `Nat → TResp`: attempt number
  to outcome (`err` = transport error or non-2xx status, `json` = 2xx
  body that decodes as JSON, `text` = 2xx body that does not).
* Python exceptions that the script would raise (AttributeError on
  `.get` of a non-dict, TypeError on comparing or slicing non-numbers)
  are `Except String`.
* Network side effects and sleeps are recorded as `List Event` traces.
-/

namespace Midas

/-- Python-like values flowing through the script. -/
inductive Py where
  | none
  | bool (b : Bool)
  | int (n : Int)
  | str (s : String)
  | dict (fields : List (String × Py))

/-- Python truthiness (`if x:`). -/
def Py.truthy : Py → Bool
  | .none => false
  | .bool b => b
  | .int n => n != 0
  | .str s => !s.isEmpty
  | .dict fs => !fs.isEmpty

/-- First-match association lookup (dict keys are unique in Python). -/
def lookupField : List (String × Py) → String → Option Py
  | [], _ => Option.none
  | (k, v) :: rest, key => if k = key then some v else lookupField rest key

/-- Python `x.get(key, default)`: only dicts have `.get`; anything else
raises AttributeError. -/
def Py.get (p : Py) (key : String) (default : Py) : Except String Py :=
  match p with
  | .dict fs => .ok ((lookupField fs key).getD default)
  | _ => .error "AttributeError: object has no attribute get"

/-- Coerce a Python value to an int as `+`/`>` would: ints and bools
work, everything else raises TypeError. -/
def Py.toIntE : Py → Except String Int
  | .int n => .ok n
  | .bool b => .ok (if b then 1 else 0)
  | _ => .error "TypeError: unsupported operand type"

/-- Python slicing `x[-k:]`: strings slice, other values raise TypeError. -/
def Py.sliceLast (p : Py) (k : Nat) : Except String String :=
  match p with
  | .str s => .ok (String.mk (s.toList.drop (s.length - k)))
  | _ => .error "TypeError: value is not subscriptable"

/-- Observable side effects of the script. -/
inductive Event where
  | get (url : String)
  | post (url : String)
  | sleep (seconds : Nat)

/-- Number of POST events to a given url in a trace. -/
def countPost (u : String) (evs : List Event) : Nat :=
  (evs.filter fun e => match e with | .post v => v == u | _ => false).length

/-- Number of GET events to a given url in a trace. -/
def countGet (u : String) (evs : List Event) : Nat :=
  (evs.filter fun e => match e with | .get v => v == u | _ => false).length

/-- Outcome of one transport-level attempt: a raised transport/HTTP
error (including `raise_for_status` on non-2xx), a 2xx body that decodes
as JSON, or a 2xx body that does not decode (with response cookies). -/
inductive TResp where
  | err
  | json (v : Py) (cookies : List (String × String))
  | text (s : String) (cookies : List (String × String))

/-- `get_request` from midas.py: try the transport; on a JSON 2xx body
return the decoded value, on a non-JSON 2xx body log a warning and
return None, on any error retry while `retries < maxRetries`, else
return None. Result: (number of attempts performed, returned value). -/
def get_request (transport : Nat → TResp) (maxRetries retries : Nat) : Nat × Py :=
  match transport retries with
  | .json v _ => (1, v)
  | .text _ _ => (1, Py.none)
  | .err =>
    if h : retries < maxRetries then
      let r := get_request transport maxRetries (retries + 1)
      (r.1 + 1, r.2)
    else
      (1, Py.none)
termination_by maxRetries - retries

/-- `post_request` from midas.py: like `get_request` but a non-JSON 2xx
body returns the raw text, and the result is paired with the response
cookies (`(None, None)` after exhausting retries). -/
def post_request (transport : Nat → TResp) (maxRetries retries : Nat) :
    Nat × (Py × Option (List (String × String))) :=
  match transport retries with
  | .json v c => (1, (v, some c))
  | .text s c => (1, (Py.str s, some c))
  | .err =>
    if h : retries < maxRetries then
      let r := post_request transport maxRetries (retries + 1)
      (r.1 + 1, r.2)
    else
      (1, (Py.none, Option.none))
termination_by maxRetries - retries

/-- The fixed API urls of midas.py. -/
def url_streak : String := "https://api-tg-app.midas.app/api/streak"

/-- User endpoint url. -/
def url_user : String := "https://api-tg-app.midas.app/api/user"

/-- Referral status endpoint url. -/
def url_referral_status : String := "https://api-tg-app.midas.app/api/referral/status"

/-- Referral claim endpoint url. -/
def url_referral_claim : String := "https://api-tg-app.midas.app/api/referral/claim"

/-- Game play endpoint url. -/
def url_game : String := "https://api-tg-app.midas.app/api/game/play"

/-- Auth register endpoint url. -/
def url_register : String := "https://api-tg-app.midas.app/api/auth/register"

/-- Per-account oracle: what each request-helper call returns during one
`process_init_data` pass. Each field is the value the corresponding
`get_request`/`post_request` call evaluates to (after its internal
retries); `play k` is the body of the k-th POST to the play endpoint. -/
structure Net where
  register : Py × Option (List (String × String))
  streakGet : Py
  streakClaim : Py
  referralGet : Py
  referralClaim : Py
  userGet : Py
  play : Nat → Py

/-- `claim_streak` from midas.py: POST the streak endpoint; on a truthy
response read `points` and `tickets` (AttributeError if the response is
not a dict), on a falsy one log an error. -/
def claim_streak (net : Net) : List Event × Except String Unit :=
  ([Event.post url_streak],
    if net.streakClaim.truthy then do
      let _ ← net.streakClaim.get "points" (Py.str "Not found")
      let _ ← net.streakClaim.get "tickets" (Py.str "Not found")
      pure ()
    else .ok ())

/-- The field reads `get_streak_info` performs on a truthy streak
response, ending with the `claimable` flag (default False). -/
def streak_claimable (streak_data : Py) : Except String Py := do
  let _ ← streak_data.get "streakDaysCount" (Py.str "Not found")
  let next_rewards ← streak_data.get "nextRewards" (Py.dict [])
  let _ ← next_rewards.get "points" (Py.str "Not found")
  let _ ← next_rewards.get "tickets" (Py.str "Not found")
  streak_data.get "claimable" (Py.bool false)

/-- `get_streak_info` from midas.py: GET the streak endpoint; on a
truthy response read the fields and, if `claimable` is truthy, run
`claim_streak`; otherwise log. -/
def get_streak_info (net : Net) : List Event × Except String Unit :=
  let ev0 := [Event.get url_streak]
  if net.streakGet.truthy then
    match streak_claimable net.streakGet with
    | .error e => (ev0, .error e)
    | .ok claimable =>
      if claimable.truthy then
        let r := claim_streak net
        (ev0 ++ r.1, r.2)
      else (ev0, .ok ())
  else (ev0, .ok ())

/-- The field reads and the `tickets > 0` color test `get_user_info`
performs on a truthy user response; returns `(tickets, points)`. -/
def user_fields (user_data : Py) : Except String (Py × Py) := do
  let _ ← user_data.get "telegramId" (Py.str "Not found")
  let _ ← user_data.get "username" (Py.str "Not found")
  let _ ← user_data.get "firstName" (Py.str "Not found")
  let points ← user_data.get "points" (Py.str "Not found")
  let tickets ← user_data.get "tickets" (Py.int 0)
  let _ ← user_data.get "gamesPlayed" (Py.str "Not found")
  let _ ← user_data.get "streakDaysCount" (Py.str "Not found")
  let _ ← tickets.toIntE
  pure (tickets, points)

/-- `get_user_info` from midas.py: GET the user endpoint; on a truthy
response log the fields and return `(tickets, points)`, else log an
error and return `(0, 0)`. -/
def get_user_info (net : Net) : List Event × Except String (Py × Py) :=
  ([Event.get url_user],
    if net.userGet.truthy then user_fields net.userGet
    else .ok (Py.int 0, Py.int 0))

/-- `check_referral_status` from midas.py: GET referral status; if the
response is truthy and `canClaim` is truthy, POST the claim endpoint and
on a truthy claim response return its totals, else return `(0, 0)`. -/
def check_referral_status (net : Net) : List Event × Except String (Py × Py) :=
  let ev0 := [Event.get url_referral_status]
  if net.referralGet.truthy then
    match net.referralGet.get "canClaim" (Py.bool false) with
    | .error e => (ev0, .error e)
    | .ok can_claim =>
      if can_claim.truthy then
        let ev1 := ev0 ++ [Event.post url_referral_claim]
        if net.referralClaim.truthy then
          match (do
            let tp ← net.referralClaim.get "totalPoints" (Py.int 0)
            let tt ← net.referralClaim.get "totalTickets" (Py.int 0)
            pure (tp, tt) : Except String (Py × Py)) with
          | .error e => (ev1, .error e)
          | .ok r => (ev1, .ok r)
        else (ev1, .ok (Py.int 0, Py.int 0))
      else (ev0, .ok (Py.int 0, Py.int 0))
  else (ev0, .ok (Py.int 0, Py.int 0))

/-- The loop body of `play_game`: while `tickets > 0`, count down three
seconds, POST the play endpoint; on a truthy body add
`body.get("points", 0)` to the total and consume a ticket, on a falsy
body break. `idx` numbers the POSTs, `total` accumulates points. -/
def playGameAux (play : Nat → Py) (tickets : Int) (idx : Nat) (total : Int) :
    List Event × Except String Int :=
  if _h : 0 < tickets then
    let ev0 := [Event.sleep 1, Event.sleep 1, Event.sleep 1, Event.post url_game]
    let game_data := play idx
    if game_data.truthy then
      match game_data.get "points" (Py.int 0) with
      | .error e => (ev0, .error e)
      | .ok pv =>
        match pv.toIntE with
        | .error e => (ev0, .error e)
        | .ok points_earned =>
          let r := playGameAux play (tickets - 1) (idx + 1) (total + points_earned)
          (ev0 ++ r.1, r.2)
    else (ev0, .ok total)
  else ([], .ok total)
termination_by tickets.toNat
decreasing_by omega

/-- `play_game` from midas.py, with trace of sleeps and play POSTs. -/
def play_game (play : Nat → Py) (tickets : Int) : List Event × Except String Int :=
  playGameAux play tickets 0 0

/-- `process_init_data` from midas.py: POST the register endpoint; on a
falsy response log and stop; otherwise preview the token and cookies
(TypeError if the token body is not sliceable, AttributeError if cookies
are None), then run streak, referral, user info, and — when the returned
ticket count is positive — `play_game`. -/
def process_init_data (net : Net) : List Event × Except String Unit :=
  let ev0 := [Event.post url_register]
  let response_text := net.register.1
  let cookies := net.register.2
  if response_text.truthy then
    match response_text.sliceLast 20 with
    | .error e => (ev0, .error e)
    | .ok _ =>
      match cookies with
      | Option.none => (ev0, .error "AttributeError: NoneType has no attribute get_dict")
      | some _ =>
        let r1 := get_streak_info net
        match r1.2 with
        | .error e => (ev0 ++ r1.1, .error e)
        | .ok _ =>
          let r2 := check_referral_status net
          match r2.2 with
          | .error e => (ev0 ++ r1.1 ++ r2.1, .error e)
          | .ok _ =>
            let r3 := get_user_info net
            match r3.2 with
            | .error e => (ev0 ++ r1.1 ++ r2.1 ++ r3.1, .error e)
            | .ok tp =>
              match tp.1.toIntE with
              | .error e => (ev0 ++ r1.1 ++ r2.1 ++ r3.1, .error e)
              | .ok t =>
                if 0 < t then
                  let r4 := play_game net.play t
                  (ev0 ++ r1.1 ++ r2.1 ++ r3.1 ++ r4.1,
                    match r4.2 with | .error e => .error e | .ok _ => .ok ())
                else (ev0 ++ r1.1 ++ r2.1 ++ r3.1, .ok ())
  else (ev0, .ok ())

/-- Whitespace characters removed by Python `str.strip()`. -/
def pyIsSpace (c : Char) : Bool :=
  c.toNat == 32 || c.toNat == 9 || c.toNat == 10 || c.toNat == 13 ||
    c.toNat == 12 || c.toNat == 11

/-- Python `line.strip()`. -/
def pyStrip (s : String) : String :=
  String.mk (((s.toList.dropWhile pyIsSpace).reverse.dropWhile pyIsSpace).reverse)

/-- `read_init_data` from midas.py: the file is `none` when missing
(FileNotFoundError path, yielding `[]`), otherwise its list of lines;
keep each stripped line that is non-blank. -/
def read_init_data (file : Option (List String)) : List String :=
  match file with
  | Option.none => []
  | some lines =>
    lines.filterMap fun l => if pyStrip l = "" then Option.none else some (pyStrip l)

/-- Configuration values loaded from config.ini. -/
structure Config where
  sleep_between_accounts : Nat
  sleep_between_runs : Nat

/-- The inner `for init_data in init_data_list` loop of `main`: process
each account then sleep `SLEEP_BETWEEN_ACCOUNTS`; an exception escaping
`process_init_data` aborts the loop (and the program). -/
def runAccounts (cfg : Config) (nets : List Net) : List Event × Except String Unit :=
  match nets with
  | [] => ([], .ok ())
  | n :: rest =>
    let r := process_init_data n
    match r.2 with
    | .error e => (r.1, .error e)
    | .ok _ =>
      let r2 := runAccounts cfg rest
      (r.1 ++ [Event.sleep cfg.sleep_between_accounts] ++ r2.1, r2.2)

/-- One iteration of the `while True` loop of `main`: a pass over all
accounts followed by the `SLEEP_BETWEEN_RUNS` sleep. -/
def mainPass (cfg : Config) (nets : List Net) : List Event × Except String Unit :=
  let r := runAccounts cfg nets
  match r.2 with
  | .error e => (r.1, .error e)
  | .ok _ => (r.1 ++ [Event.sleep cfg.sleep_between_runs], .ok ())

/-- `main` from midas.py up to the end of the first pass: read the
credential file; if the list is empty log and return at once (no network
traffic), else run the first pass of the infinite loop. `nets` gives
each credential's per-account oracle. -/
def mainOnce (cfg : Config) (file : Option (List String)) (nets : String → Net) :
    List Event × Except String Unit :=
  let init_data_list := read_init_data file
  if init_data_list.isEmpty then ([], .ok ())
  else mainPass cfg (init_data_list.map nets)

/-- Truthy dict response whose `points` field, if present, is an int:
the shape under which a play iteration succeeds and contributes
`points`-or-0 to the running total. -/
def nicePlayB (p : Py) : Bool :=
  match p with
  | .dict fs =>
    !fs.isEmpty &&
      (match lookupField fs "points" with
       | Option.none => true
       | some (.int _) => true
       | _ => false)
  | _ => false

/-- The points a play response contributes: its `points` field with
default 0. -/
def pointsD (p : Py) : Int :=
  match p with
  | .dict fs =>
    match lookupField fs "points" with
    | some (.int n) => n
    | _ => 0
  | _ => 0

/-- A concrete oracle whose every request-helper call fails. -/
def netTrivial : Net where
  register := (Py.none, Option.none)
  streakGet := Py.none
  streakClaim := Py.none
  referralGet := Py.none
  referralClaim := Py.none
  userGet := Py.none
  play := fun _ => Py.none

/-- Oracle whose streak-claim POST got a 2xx non-JSON body: the helper
hands the raw text string to `claim_streak`. -/
def netStrClaim : Net := { netTrivial with streakClaim := Py.str "ok" }

/-- Oracle whose streak-claim POST returned a JSON dict. -/
def netDictClaim : Net := { netTrivial with streakClaim := Py.dict [("points", Py.int 5)] }

/-- Oracle whose streak-info GET returned a dict whose `nextRewards`
field is a string instead of a dict. -/
def netStrNextRewards : Net :=
  { netTrivial with streakGet := Py.dict [("nextRewards", Py.str "x")] }

/-- Oracle whose user-info GET returned a dict whose `tickets` field is
a string instead of an int. -/
def netStrTickets : Net :=
  { netTrivial with userGet := Py.dict [("tickets", Py.str "5")] }

/-- Oracle with a claimable streak response. -/
def netStreakClaimable : Net := { netTrivial with streakGet := Py.dict [("claimable", Py.bool true)] }

/-- Oracle with a non-claimable streak response. -/
def netStreakNo : Net := { netTrivial with streakGet := Py.dict [("claimable", Py.bool false)] }

/-- Play oracle: first response is a truthy dict without `points`,
later responses carry 5 points. -/
def wPlay : Nat → Py :=
  fun k => if k = 0 then Py.dict [("ok", Py.bool true)] else Py.dict [("points", Py.int 5)]

/-- Play oracle whose second call fails after retries. -/
def wPlayFail : Nat → Py :=
  fun k => if k = 1 then Py.none else Py.dict [("points", Py.int 7)]

theorem countPost_append (u : String) (a b : List Event) :
    countPost u (a ++ b) = countPost u a + countPost u b := by
  simp [countPost, List.filter_append]

theorem countPost_playEv :
    countPost url_game [Event.sleep 1, Event.sleep 1, Event.sleep 1, Event.post url_game] = 1 := by
  simp [countPost]

theorem get_request_err_count (transport : Nat → TResp)
    (h : ∀ n, transport n = TResp.err) :
    ∀ (k M r : Nat), M - r = k → get_request transport M r = (k + 1, Py.none) := by
  intro k
  induction k with
  | zero =>
    intro M r hk
    have hnot : ¬ r < M := by omega
    rw [get_request, h r]
    simp [hnot]
  | succ k ih =>
    intro M r hk
    have hr : r < M := by omega
    rw [get_request, h r]
    simp [hr, ih M (r + 1) (by omega)]

theorem post_request_err_count (transport : Nat → TResp)
    (h : ∀ n, transport n = TResp.err) :
    ∀ (k M r : Nat), M - r = k →
      post_request transport M r = (k + 1, (Py.none, Option.none)) := by
  intro k
  induction k with
  | zero =>
    intro M r hk
    have hnot : ¬ r < M := by omega
    rw [post_request, h r]
    simp [hnot]
  | succ k ih =>
    intro M r hk
    have hr : r < M := by omega
    rw [post_request, h r]
    simp [hr, ih M (r + 1) (by omega)]

/-- C1: a request whose transport fails on every attempt performs
exactly `max_retries + 1` attempts (the initial call plus `max_retries`
retries) and returns the failure result: None for GET, (None, None) for
POST. -/
theorem request_retry_exhaustion (transport : Nat → TResp) (M : Nat)
    (h : ∀ n, transport n = TResp.err) :
    get_request transport M 0 = (M + 1, Py.none) ∧
    post_request transport M 0 = (M + 1, (Py.none, Option.none)) :=
  ⟨get_request_err_count transport h M M 0 (by omega),
   post_request_err_count transport h M M 0 (by omega)⟩

/-- Witness for C1 at `max_retries = 3` and an always-failing transport:
four attempts, then the failure result. -/
theorem request_retry_exhaustion_witness :
    get_request (fun _ => TResp.err) 3 0 = (4, Py.none) ∧
    post_request (fun _ => TResp.err) 3 0 = (4, (Py.none, Option.none)) :=
  request_retry_exhaustion (fun _ => TResp.err) 3 (fun _ => rfl)

/-- C6 counterexample: on a 2xx response whose body is not JSON,
`get_request` returns None — not the raw response text as claimed. -/
theorem get_request_nonjson_counterexample :
    (get_request (fun _ => TResp.text "raw" []) 3 0).2 = Py.none ∧
    Py.none ≠ Py.str "raw" := by
  refine ⟨?_, fun hc => by cases hc⟩
  rw [get_request]

/-- C6 amended: on the first 2xx response, `post_request` returns the
parsed JSON value when the body parses and the raw text otherwise,
while `get_request` returns the parsed JSON value when the body parses
and None (after a warning log) otherwise. -/
theorem request_parse_behavior (transport : Nat → TResp) (M r : Nat)
    (v : Py) (c : List (String × String)) (s : String) :
    (transport r = TResp.json v c →
      get_request transport M r = (1, v) ∧
      post_request transport M r = (1, (v, some c))) ∧
    (transport r = TResp.text s c →
      get_request transport M r = (1, Py.none) ∧
      post_request transport M r = (1, (Py.str s, some c))) := by
  constructor <;> intro h <;> constructor
  · rw [get_request, h]
  · rw [post_request, h]
  · rw [get_request, h]
  · rw [post_request, h]

/-- Witness for C6's amended statement at concrete transports. -/
theorem request_parse_behavior_witness :
    get_request (fun _ => TResp.json (Py.int 5) []) 3 0 = (1, Py.int 5) ∧
    post_request (fun _ => TResp.text "tok" [("sid", "a")]) 3 0 =
      (1, (Py.str "tok", some [("sid", "a")])) :=
  ⟨((request_parse_behavior (fun _ => TResp.json (Py.int 5) []) 3 0
      (Py.int 5) [] "").1 rfl).1,
   ((request_parse_behavior (fun _ => TResp.text "tok" [("sid", "a")]) 3 0
      Py.none [("sid", "a")] "tok").2 rfl).2⟩

theorem nicePlay_run (p : Py) (hp : nicePlayB p = true) :
    p.truthy = true ∧
    ∃ pv, p.get "points" (Py.int 0) = Except.ok pv ∧
      pv.toIntE = Except.ok (pointsD p) := by
  cases p with
  | dict fs =>
    rw [nicePlayB] at hp
    rw [Bool.and_eq_true] at hp
    obtain ⟨h1, h2⟩ := hp
    refine ⟨by simpa [Py.truthy] using h1, ?_⟩
    cases hl : lookupField fs "points" with
    | none =>
      exact ⟨Py.int 0, by simp [Py.get, hl], by simp [pointsD, hl, Py.toIntE]⟩
    | some v =>
      cases v with
      | int n =>
        exact ⟨Py.int n, by simp [Py.get, hl], by simp [pointsD, hl, Py.toIntE]⟩
      | none => rw [hl] at h2; cases h2
      | bool b => rw [hl] at h2; cases h2
      | str s => rw [hl] at h2; cases h2
      | dict gs => rw [hl] at h2; cases h2
  | none => cases hp
  | bool b => cases hp
  | int n => cases hp
  | str s => cases hp

theorem playGameAux_done (play : Nat → Py) (t : Int) (idx : Nat) (total : Int)
    (ht : ¬ 0 < t) :
    playGameAux play t idx total = ([], Except.ok total) := by
  rw [playGameAux]
  simp [ht]

theorem playGameAux_stop (play : Nat → Py) (t : Int) (idx : Nat) (total : Int)
    (ht : 0 < t) (hp : play idx = Py.none) :
    playGameAux play t idx total =
      ([Event.sleep 1, Event.sleep 1, Event.sleep 1, Event.post url_game],
       Except.ok total) := by
  rw [playGameAux]
  simp [ht, hp, Py.truthy]

theorem playGameAux_step (play : Nat → Py) (t : Int) (idx : Nat) (total : Int)
    (ht : 0 < t) (hp : nicePlayB (play idx) = true) :
    playGameAux play t idx total =
      ([Event.sleep 1, Event.sleep 1, Event.sleep 1, Event.post url_game] ++
         (playGameAux play (t - 1) (idx + 1) (total + pointsD (play idx))).1,
       (playGameAux play (t - 1) (idx + 1) (total + pointsD (play idx))).2) := by
  obtain ⟨htr, pv, hget, hint⟩ := nicePlay_run (play idx) hp
  rw [playGameAux]
  simp [ht, htr, hget, hint]

theorem playGameAux_le (play : Nat → Py) :
    ∀ (n : Nat) (t : Int) (idx : Nat) (total : Int), t.toNat = n →
      countPost url_game (playGameAux play t idx total).1 ≤ n := by
  intro n
  induction n with
  | zero =>
    intro t idx total hn
    rw [playGameAux_done play t idx total (by omega)]
    simp [countPost]
  | succ n ih =>
    intro t idx total hn
    have ht : 0 < t := by omega
    rw [playGameAux]
    simp only [ht, dif_pos]
    cases htr : (play idx).truthy with
    | false => simp [htr, countPost]
    | true =>
      simp only [htr, if_true]
      cases hget : (play idx).get "points" (Py.int 0) with
      | error e => simp [hget, countPost]
      | ok pv =>
        cases hint : pv.toIntE with
        | error e => simp [hget, hint, countPost]
        | ok m =>
          simp only [hget, hint]
          rw [countPost_append, countPost_playEv]
          have := ih (t - 1) (idx + 1) (total + m) (by omega)
          omega

theorem sum_points_shift (play : Nat → Py) (idx n : Nat) :
    ∑ k ∈ Finset.range (n + 1), pointsD (play (idx + k)) =
      pointsD (play idx) + ∑ k ∈ Finset.range n, pointsD (play (idx + 1 + k)) := by
  rw [Finset.sum_range_succ']
  have h1 : ∀ k ∈ Finset.range n,
      pointsD (play (idx + (k + 1))) = pointsD (play (idx + 1 + k)) := by
    intro k _
    have hx : idx + (k + 1) = idx + 1 + k := by omega
    rw [hx]
  rw [Finset.sum_congr rfl h1, Nat.add_zero]
  exact add_comm _ _

theorem playGameAux_ok (play : Nat → Py) :
    ∀ (n : Nat) (t : Int) (idx : Nat) (total : Int), t.toNat = n →
      (∀ k, k < n → nicePlayB (play (idx + k)) = true) →
      countPost url_game (playGameAux play t idx total).1 = n ∧
      (playGameAux play t idx total).2 =
        Except.ok (total + ∑ k ∈ Finset.range n, pointsD (play (idx + k))) := by
  intro n
  induction n with
  | zero =>
    intro t idx total hn _
    rw [playGameAux_done play t idx total (by omega)]
    simp [countPost]
  | succ n ih =>
    intro t idx total hn hnice
    have ht : 0 < t := by omega
    have h0 := hnice 0 n.succ_pos
    rw [Nat.add_zero] at h0
    rw [playGameAux_step play t idx total ht h0]
    have hsh : ∀ k, k < n → nicePlayB (play (idx + 1 + k)) = true := by
      intro k hk
      have hx := hnice (k + 1) (by omega)
      rwa [show idx + (k + 1) = idx + 1 + k by omega] at hx
    obtain ⟨hc, hv⟩ := ih (t - 1) (idx + 1) (total + pointsD (play idx)) (by omega) hsh
    constructor
    · rw [countPost_append, countPost_playEv, hc]
      omega
    · rw [hv]
      congr 1
      rw [sum_points_shift]
      ring

theorem playGameAux_fail (play : Nat → Py) :
    ∀ (m : Nat) (t : Int) (idx : Nat) (total : Int), m < t.toNat →
      (∀ j, j < m → nicePlayB (play (idx + j)) = true) →
      play (idx + m) = Py.none →
      countPost url_game (playGameAux play t idx total).1 = m + 1 ∧
      (playGameAux play t idx total).2 =
        Except.ok (total + ∑ j ∈ Finset.range m, pointsD (play (idx + j))) := by
  intro m
  induction m with
  | zero =>
    intro t idx total hm _ hfail
    have ht : 0 < t := by omega
    rw [Nat.add_zero] at hfail
    rw [playGameAux_stop play t idx total ht hfail]
    constructor
    · exact countPost_playEv
    · simp
  | succ m ih =>
    intro t idx total hm hnice hfail
    have ht : 0 < t := by omega
    have h0 := hnice 0 m.succ_pos
    rw [Nat.add_zero] at h0
    rw [playGameAux_step play t idx total ht h0]
    have hsh : ∀ j, j < m → nicePlayB (play (idx + 1 + j)) = true := by
      intro j hj
      have hx := hnice (j + 1) (by omega)
      rwa [show idx + (j + 1) = idx + 1 + j by omega] at hx
    have hfail2 : play (idx + 1 + m) = Py.none := by
      rwa [show idx + 1 + m = idx + (m + 1) by omega]
    obtain ⟨hc, hv⟩ :=
      ih (t - 1) (idx + 1) (total + pointsD (play idx)) (by omega) hsh hfail2
    constructor
    · rw [countPost_append, countPost_playEv, hc]
      omega
    · rw [hv]
      congr 1
      rw [sum_points_shift]
      ring

/-- C2: when the user info reports `t` tickets and every play call
succeeds with `points = 10`, `play_game` POSTs the play endpoint once
per ticket — `t` times — and returns the accumulated total `10 * t`. -/
theorem play_game_three_tickets (play : Nat → Py) (t : Int)
    (h : ∀ k, k < t.toNat → play k = Py.dict [("points", Py.int 10)]) :
    countPost url_game (play_game play t).1 = t.toNat ∧
    (play_game play t).2 = Except.ok (10 * (t.toNat : Int)) := by
  have hnice : ∀ k, k < t.toNat → nicePlayB (play (0 + k)) = true := by
    intro k hk
    rw [Nat.zero_add, h k hk]
    rfl
  obtain ⟨hc, hv⟩ := playGameAux_ok play t.toNat t 0 0 rfl hnice
  refine ⟨hc, ?_⟩
  rw [play_game, hv]
  congr 1
  rw [Finset.sum_congr rfl
    (fun k hk => by rw [Nat.zero_add, h k (Finset.mem_range.1 hk)])]
  simp [pointsD, lookupField, Finset.sum_const, mul_comm]

/-- Witness for C2 at `tickets = 3`, every play earning 10 points:
exactly 3 POSTs and a total of 30. -/
theorem play_game_three_tickets_witness :
    countPost url_game (play_game (fun _ => Py.dict [("points", Py.int 10)]) 3).1 = 3 ∧
    (play_game (fun _ => Py.dict [("points", Py.int 10)]) 3).2 = Except.ok 30 := by
  have hx := play_game_three_tickets (fun _ => Py.dict [("points", Py.int 10)]) 3
    (fun _ _ => rfl)
  simpa using hx

/-- C4: if the k-th play call fails after retries while the first k-1
succeed, `play_game` issues no further play calls — exactly k POSTs
happen — and returns the total accumulated by the k-1 successes. -/
theorem play_game_stops_on_failure (play : Nat → Py) (t : Int) (k : Nat)
    (h1 : 1 ≤ k) (h2 : k ≤ t.toNat)
    (h3 : ∀ j, j < k - 1 → nicePlayB (play j) = true)
    (h4 : play (k - 1) = Py.none) :
    countPost url_game (play_game play t).1 = k ∧
    (play_game play t).2 =
      Except.ok (∑ j ∈ Finset.range (k - 1), pointsD (play j)) := by
  have h3x : ∀ j, j < k - 1 → nicePlayB (play (0 + j)) = true := by
    intro j hj
    rw [Nat.zero_add]
    exact h3 j hj
  have h4x : play (0 + (k - 1)) = Py.none := by rwa [Nat.zero_add]
  obtain ⟨hc, hv⟩ := playGameAux_fail play (k - 1) t 0 0 (by omega) h3x h4x
  constructor
  · rw [play_game, hc]
    omega
  · rw [play_game, hv]
    simp

/-- Witness for C4: three tickets, second play fails: 2 POSTs, total 7. -/
theorem play_game_stops_on_failure_witness :
    countPost url_game (play_game wPlayFail 3).1 = 2 ∧
    (play_game wPlayFail 3).2 = Except.ok 7 := by
  have hx := play_game_stops_on_failure wPlayFail 3 2 (by omega) (by decide)
    (by decide) rfl
  simpa [wPlayFail, pointsD, lookupField] using hx

/-- C10: the number of play POSTs never exceeds the initial ticket
count; and when every play response is a truthy dict whose `points`
field (if present) is an int, one POST happens per ticket and the
returned total is the sum of the per-play `points` values with default
0 — a response lacking `points` still consumes its ticket and
contributes 0. -/
theorem play_game_invariants (play : Nat → Py) (t : Int) :
    countPost url_game (play_game play t).1 ≤ t.toNat ∧
    ((∀ k, k < t.toNat → nicePlayB (play k) = true) →
      countPost url_game (play_game play t).1 = t.toNat ∧
      (play_game play t).2 =
        Except.ok (∑ k ∈ Finset.range t.toNat, pointsD (play k))) := by
  constructor
  · exact playGameAux_le play t.toNat t 0 0 rfl
  · intro h
    have hx : ∀ k, k < t.toNat → nicePlayB (play (0 + k)) = true := by
      intro k hk
      rw [Nat.zero_add]
      exact h k hk
    obtain ⟨hc, hv⟩ := playGameAux_ok play t.toNat t 0 0 rfl hx
    refine ⟨hc, ?_⟩
    rw [play_game, hv]
    simp

/-- Witness for C10: two tickets, first response lacks `points`, second
carries 5: two POSTs, total 5. -/
theorem play_game_invariants_witness :
    countPost url_game (play_game wPlay 2).1 ≤ 2 ∧
    countPost url_game (play_game wPlay 2).1 = 2 ∧
    (play_game wPlay 2).2 = Except.ok 5 := by
  obtain ⟨hle, himp⟩ := play_game_invariants wPlay 2
  obtain ⟨hc, hv⟩ := himp (by decide)
  refine ⟨hle, hc, ?_⟩
  rw [hv]
  simp [wPlay, pointsD, lookupField, Finset.sum_range_succ]

theorem streak_claimable_dict (fs : List (String × Py))
    (hnr : lookupField fs "nextRewards" = Option.none ∨
      ∃ gs, lookupField fs "nextRewards" = some (Py.dict gs)) :
    streak_claimable (Py.dict fs) =
      Except.ok ((lookupField fs "claimable").getD (Py.bool false)) := by
  rcases hnr with h | ⟨gs, h⟩ <;>
    simp [streak_claimable, Py.get, h, bind, Except.bind]

/-- C3: on a streak response dict whose `nextRewards` field is absent or
a dict, a `claimable` field equal to true makes `get_streak_info` POST
the streak claim endpoint exactly once, while a `claimable` equal to
false, or absent, makes it never POST the claim endpoint. -/
theorem streak_claim_count (net : Net) (fs : List (String × Py))
    (hs : net.streakGet = Py.dict fs)
    (hnr : lookupField fs "nextRewards" = Option.none ∨
      ∃ gs, lookupField fs "nextRewards" = some (Py.dict gs)) :
    (lookupField fs "claimable" = some (Py.bool true) →
      countPost url_streak (get_streak_info net).1 = 1) ∧
    ((lookupField fs "claimable" = some (Py.bool false) ∨
      lookupField fs "claimable" = Option.none) →
      countPost url_streak (get_streak_info net).1 = 0) := by
  have hcl := streak_claimable_dict fs hnr
  constructor
  · intro hc
    cases fs with
    | nil => simp [lookupField] at hc
    | cons a as =>
      simp [get_streak_info, hs, Py.truthy, hcl, hc, claim_streak, countPost]
  · intro hc
    cases fs with
    | nil => simp [get_streak_info, hs, Py.truthy, countPost]
    | cons a as =>
      rcases hc with hc | hc <;>
        simp [get_streak_info, hs, Py.truthy, hcl, hc, countPost]

/-- Witness for C3: a claimable streak response yields one claim POST,
a non-claimable one yields none. -/
theorem streak_claim_count_witness :
    countPost url_streak (get_streak_info netStreakClaimable).1 = 1 ∧
    countPost url_streak (get_streak_info netStreakNo).1 = 0 :=
  ⟨(streak_claim_count netStreakClaimable [("claimable", Py.bool true)] rfl
      (Or.inl rfl)).1 rfl,
   (streak_claim_count netStreakNo [("claimable", Py.bool false)] rfl
      (Or.inl rfl)).2 (Or.inl rfl)⟩

/-- C5 counterexample: truthy responses of the wrong shape raise out of
the step instead of yielding a neutral value. A 2xx non-JSON claim
response reaches `claim_streak` as a raw (truthy) text string and
`response.get` raises AttributeError; a streak dict whose `nextRewards`
is a string makes `get_streak_info` raise AttributeError on
`next_rewards.get`; a user dict whose `tickets` is a string makes
`get_user_info` raise TypeError at the `tickets > 0` comparison. -/
theorem step_bad_shape_response_raises :
    (claim_streak netStrClaim).2 =
      Except.error "AttributeError: object has no attribute get" ∧
    (get_streak_info netStrNextRewards).2 =
      Except.error "AttributeError: object has no attribute get" ∧
    (get_user_info netStrTickets).2 =
      Except.error "TypeError: unsupported operand type" ∧
    (claim_streak netStrClaim).2 ≠ Except.ok () := by
  refine ⟨rfl, rfl, rfl, ?_⟩
  intro hc
  rw [show (claim_streak netStrClaim).2 =
    Except.error "AttributeError: object has no attribute get" from rfl] at hc
  cases hc

/-- C5 amended: every fetch or claim step tolerates a falsy (absent,
None, empty) response by logging and returning its zero/neutral value,
and `claim_streak` also tolerates any dict response; truthy responses
of the wrong shape instead raise past the step (see the
counterexamples: a non-dict truthy response raises AttributeError on
`.get`, a string `nextRewards` raises AttributeError, a string
`tickets` raises TypeError). -/
theorem step_neutral_on_dict_or_falsy (net : Net) :
    (∀ fs, net.streakClaim = Py.dict fs → (claim_streak net).2 = Except.ok ()) ∧
    (net.streakClaim.truthy = false → (claim_streak net).2 = Except.ok ()) ∧
    (net.streakGet.truthy = false → (get_streak_info net).2 = Except.ok ()) ∧
    (net.userGet.truthy = false →
      (get_user_info net).2 = Except.ok (Py.int 0, Py.int 0)) ∧
    (net.referralGet.truthy = false →
      (check_referral_status net).2 = Except.ok (Py.int 0, Py.int 0)) := by
  refine ⟨?_, ?_, ?_, ?_, ?_⟩
  · intro fs hfs
    cases htr : net.streakClaim.truthy with
    | false => simp [claim_streak, htr]
    | true =>
      simp only [claim_streak, htr, hfs, Py.get, bind, Except.bind, if_true]
      split <;> rfl
  · intro h
    simp [claim_streak, h]
  · intro h
    simp [get_streak_info, h]
  · intro h
    simp [get_user_info, h]
  · intro h
    simp [check_referral_status, h]

/-- Witness for C5's amended statement: a dict claim response and falsy
fetch responses all yield the neutral results. -/
theorem step_neutral_witness :
    (claim_streak netDictClaim).2 = Except.ok () ∧
    (get_user_info netTrivial).2 = Except.ok (Py.int 0, Py.int 0) :=
  ⟨(step_neutral_on_dict_or_falsy netDictClaim).1 [("points", Py.int 5)] rfl,
   (step_neutral_on_dict_or_falsy netTrivial).2.2.2.1 rfl⟩

/-- C7: when the credential file is missing or holds only blank lines,
the loaded account list is empty and `main` returns at once, with an
empty event trace — no network call is made. -/
theorem empty_credentials_no_network (cfg : Config) (file : Option (List String))
    (nets : String → Net)
    (h : file = Option.none ∨
      ∃ lines, file = some lines ∧ ∀ l ∈ lines, pyStrip l = "") :
    read_init_data file = [] ∧ mainOnce cfg file nets = ([], Except.ok ()) := by
  have hr : read_init_data file = [] := by
    rcases h with h | ⟨lines, rfl, hl⟩
    · rw [h]
      rfl
    · rw [read_init_data]
      rw [List.filterMap_eq_nil_iff]
      intro l hm
      simp [hl l hm]
  exact ⟨hr, by simp [mainOnce, hr]⟩

/-- Witness for C7 at a file of two blank lines. -/
theorem empty_credentials_no_network_witness :
    read_init_data (some ["", "  "]) = [] ∧
    mainOnce ⟨10, 28800⟩ (some ["", "  "]) (fun _ => netTrivial) =
      ([], Except.ok ()) := by
  refine empty_credentials_no_network ⟨10, 28800⟩ (some ["", "  "])
    (fun _ => netTrivial) (Or.inr ⟨["", "  "], rfl, ?_⟩)
  intro l hl
  cases hl with
  | head => rfl
  | tail _ h2 =>
    cases h2 with
    | head => rfl
    | tail _ h3 => cases h3

/-- C8: when the auth POST returns a failure result, the account's pass
ends there — the trace holds only the register POST, so none of the
streak, referral, user-info, or play endpoints is called — and the
driver moves on to the next account. -/
theorem auth_failure_aborts_pass (cfg : Config) (net net2 : Net)
    (h : net.register.1 = Py.none) :
    process_init_data net = ([Event.post url_register], Except.ok ()) ∧
    runAccounts cfg [net, net2] =
      ([Event.post url_register] ++ [Event.sleep cfg.sleep_between_accounts] ++
        (runAccounts cfg [net2]).1,
       (runAccounts cfg [net2]).2) := by
  have h1 : process_init_data net = ([Event.post url_register], Except.ok ()) := by
    simp [process_init_data, h, Py.truthy]
  exact ⟨h1, by simp [runAccounts, h1]⟩

/-- Witness for C8 at an oracle whose auth POST failed. -/
theorem auth_failure_aborts_pass_witness :
    process_init_data netTrivial = ([Event.post url_register], Except.ok ()) ∧
    runAccounts ⟨10, 28800⟩ [netTrivial, netTrivial] =
      ([Event.post url_register] ++ [Event.sleep 10] ++
        (runAccounts ⟨10, 28800⟩ [netTrivial]).1,
       (runAccounts ⟨10, 28800⟩ [netTrivial]).2) :=
  auth_failure_aborts_pass ⟨10, 28800⟩ netTrivial netTrivial rfl

/-- C9: a full pass over two credentials sleeps the per-account interval
between the first and the second account (and again after the second),
then sleeps the per-cycle interval after the pass, before any account of
the next pass would run. -/
theorem main_pass_sleep_order (cfg : Config) (n1 n2 : Net)
    (h1 : (process_init_data n1).2 = Except.ok ())
    (h2 : (process_init_data n2).2 = Except.ok ()) :
    mainPass cfg [n1, n2] =
      ((process_init_data n1).1 ++ [Event.sleep cfg.sleep_between_accounts] ++
       ((process_init_data n2).1 ++ [Event.sleep cfg.sleep_between_accounts] ++
        [Event.sleep cfg.sleep_between_runs]), Except.ok ()) := by
  simp [mainPass, runAccounts, h1, h2]

/-- Witness for C9 at two concrete accounts whose auth fails fast. -/
theorem main_pass_sleep_order_witness :
    mainPass ⟨10, 28800⟩ [netTrivial, netTrivial] =
      ([Event.post url_register] ++ [Event.sleep 10] ++
       ([Event.post url_register] ++ [Event.sleep 10] ++ [Event.sleep 28800]),
       Except.ok ()) := by
  have hx := main_pass_sleep_order ⟨10, 28800⟩ netTrivial netTrivial rfl rfl
  rw [hx]
  rfl

end Midas
